import Mathlib

/-
Shallow embedding of the resilient request-dispatch core of the
kra-etims SDK (files src/kra_etims/client.py, async_client.py,
middleware.py, exceptions.py).

Conventions of the embedding:
* Python `Optional[str]` becomes `Option String`; Python truthiness of an
  optional string (`if x:`) is `isTruthy`.
* Wall-clock seconds are `Int` (`time.time()` is passed in as `now`).
* The network is an oracle: what the token endpoint answers is an
  `AuthNetOutcome`, what the dispatched HTTP call does is a
  `SyncNetOutcome` / `AsyncNetOutcome`.  Transport failures are
  represented at the granularity the claims speak of (`FailureKind`);
  the mapping of each kind onto the exception classes of the `requests`
  and `httpx` libraries (which is what the source's `except` clauses
  branch on) is recorded in the classifier definitions below.
* Exceptions become constructors of explicit result types.
-/

namespace KraEtims

/-- Python `str.upper()`, character by character.  (Defined over the
character list so that it evaluates by kernel reduction; the core
`String.toUpper` goes through byte positions and does not.) -/
def pyUpper (s : String) : String := ⟨s.data.map Char.toUpper⟩

/-- Python `str.startswith(pre)`, as a character-list prefix test. -/
def pyStartsWith (s pre : String) : Bool := pre.data.isPrefixOf s.data

/-- Python `str.strip()`: drop leading and trailing whitespace. -/
def pyStrip (s : String) : String :=
  ⟨((s.data.dropWhile Char.isWhitespace).reverse.dropWhile Char.isWhitespace).reverse⟩

/-- Mutating-verb test, mirroring `method.upper() in ["POST", "PUT", "DELETE", "PATCH"]`
from both `_request` implementations. -/
def isMutatingMethod (m : String) : Bool :=
  let u := pyUpper m
  u == "POST" || u == "PUT" || u == "DELETE" || u == "PATCH"

/-- Per-string transform applied by the `sanitize_kra_url` decorator
(middleware.py): a string argument is stripped exactly when it starts
with `http://` or `https://`; every other string is passed through
unchanged. -/
def sanitize_kra_url_str (s : String) : String :=
  if pyStartsWith s "http://" || pyStartsWith s "https://" then pyStrip s else s

/-- Python truthiness of an `Optional[str]`: `None` and `""` are falsy. -/
def isTruthy : Option String → Bool
  | none => false
  | some s => s != ""

/-- Python `str.rstrip('/')`. -/
def stripTrailingSlashes (s : String) : String :=
  ⟨(s.data.reverse.dropWhile (· == '/')).reverse⟩

/-- Python `str.lstrip('/')`. -/
def stripLeadingSlashes (s : String) : String := ⟨s.data.dropWhile (· == '/')⟩

/-- Hardcoded production URL from both constructors. -/
def defaultBaseUrl : String := "https://taxid-production.up.railway.app"

/-- Python `env_url or base_url or default_url` (constructor line 35):
first non-falsy of the stripped environment value, the constructor
argument and the hardcoded default. -/
def pickRawUrl (envUrl : String) (ctor : Option String) : String :=
  if envUrl != "" then envUrl
  else
    match ctor with
    | some s => if s != "" then s else defaultBaseUrl
    | none => defaultBaseUrl

/-- Base-URL resolution of `__init__`:
`env_url = (os.getenv("TAXID_API_URL") or "").strip()`,
`raw_url = env_url or base_url or default_url`,
`self.base_url = raw_url.strip().rstrip('/')`. -/
def mkBaseUrl (env : Option String) (ctor : Option String) : String :=
  let envUrl := pyStrip (env.getD "")
  stripTrailingSlashes (pyStrip (pickRawUrl envUrl ctor))

/-- Credential state held by a client instance: `_access_token` and
`_token_expiry`. -/
structure TokenState where
  accessToken : Option String
  tokenExpiry : Int
deriving Repr, DecidableEq

/-- Python `not self._access_token`: true for a missing or empty token. -/
def tokenFalsy : Option String → Bool
  | none => true
  | some s => s == ""

/-- Refresh decision evaluated inside the lock:
`if not self._access_token or (self._token_expiry - now) < 60`. -/
def needsRefresh (st : TokenState) (now : Int) : Bool :=
  tokenFalsy st.accessToken || decide (st.tokenExpiry - now < 60)

/-- What the token endpoint does when contacted: an HTTP response
(status, optional `access_token`, optional `expires_in`, response text),
or a transport-level failure carrying its message. -/
inductive AuthNetOutcome where
  | response (status : Nat) (accessToken : Option String) (expiresIn : Option Int) (text : String)
  | transportError (msg : String)
deriving Repr, DecidableEq

/-- Record of one HTTP call made to the token endpoint, with the timeout
the source attaches to that call. -/
structure AuthCall where
  url : String
  timeoutSeconds : Option Nat
deriving Repr, DecidableEq

/-- Outcome of `_authenticate`: returns normally with the (possibly
refreshed) state, raises `KRAeTIMSAuthError`, or — in the synchronous
client only — lets the underlying transport exception escape unwrapped. -/
inductive AuthOutcome where
  | ok (st : TokenState)
  | authError (msg : String)
  | rawTransport (msg : String)
deriving Repr, DecidableEq

/-- Did `_authenticate` return normally? -/
def AuthOutcome.isOk : AuthOutcome → Bool
  | .ok _ => true
  | _ => false

/-- AuthOutcome paired with the list of token-endpoint HTTP calls made. -/
structure AuthResult where
  outcome : AuthOutcome
  calls : List AuthCall
deriving Repr, DecidableEq

/-- State written on a 200 reply:
`self._access_token = data.get("access_token")`;
`self._token_expiry = now + data.get("expires_in", 3600)`. -/
def refreshedState (now : Int) (tok : Option String) (expiresIn : Option Int) : TokenState :=
  { accessToken := tok, tokenExpiry := now + expiresIn.getD 3600 }

/-- Synchronous `KRAeTIMSClient._authenticate` (client.py lines 48-69),
run as one critical section under `self._lock`.  The `session.post` call
passes no `timeout=` keyword, so the call is recorded with
`timeoutSeconds := none` (the `requests` default of no timeout).  There
is no try/except around the call: a transport error propagates raw. -/
def syncAuthenticate (baseUrl : String) (st : TokenState) (now : Int)
    (net : AuthNetOutcome) : AuthResult :=
  if needsRefresh st now then
    let call : AuthCall := { url := baseUrl ++ "/oauth/token", timeoutSeconds := none }
    match net with
    | .transportError m => { outcome := .rawTransport m, calls := [call] }
    | .response status tok exp text =>
      if status != 200 then
        { outcome := .authError ("TIaaS Authentication failed: " ++ text), calls := [call] }
      else
        { outcome := .ok (refreshedState now tok exp), calls := [call] }
  else
    { outcome := .ok st, calls := [] }

/-- Asynchronous `AsyncKRAeTIMSClient._authenticate` (async_client.py
lines 53-73), run as one critical section under the `asyncio.Lock`.  The
`httpx.AsyncClient` is constructed with `timeout=30.0`, so the token call
is recorded with `timeoutSeconds := some 30`.  An `httpx.RequestError` is
caught and rewrapped as `KRAeTIMSAuthError`. -/
def asyncAuthenticate (baseUrl : String) (st : TokenState) (now : Int)
    (net : AuthNetOutcome) : AuthResult :=
  if needsRefresh st now then
    let call : AuthCall := { url := baseUrl ++ "/oauth/token", timeoutSeconds := some 30 }
    match net with
    | .transportError m =>
      { outcome := .authError ("TIaaS Authentication unreachable: " ++ m), calls := [call] }
    | .response status tok exp text =>
      if status != 200 then
        { outcome := .authError ("TIaaS Authentication failed: " ++ text), calls := [call] }
      else
        { outcome := .ok (refreshedState now tok exp), calls := [call] }
  else
    { outcome := .ok st, calls := [] }

/-- Transport-level failure kinds the claims distinguish. -/
inductive FailureKind where
  | connectRefused
  | dnsFailure
  | connectTimeout
  | readTimeout
  | writeTimeout
  | poolTimeout
  | midflightError
deriving Repr, DecidableEq

/-- Failures occurring while (or before) establishing the connection. -/
def FailureKind.isConnectPhase : FailureKind → Bool
  | .connectRefused => true
  | .dnsFailure => true
  | .connectTimeout => true
  | _ => false

/-- Failures occurring after the request may have been transmitted. -/
def FailureKind.isMidflight (k : FailureKind) : Bool := !k.isConnectPhase

/-- What the dispatched HTTP call does in the synchronous client: an HTTP
response with a status code, a transport failure (every `FailureKind`
surfaces from the `requests` library as `requests.exceptions.ConnectionError`
or `requests.exceptions.Timeout`, the two classes caught together by the
first `except` clause of `_request`), or any other `RequestException`,
optionally carrying a response status. -/
inductive SyncNetOutcome where
  | response (status : Nat)
  | transportFailure (k : FailureKind)
  | otherRequestExn (respStatus : Option Nat)
deriving Repr, DecidableEq

/-- What the dispatched HTTP call does in the asynchronous client: an
HTTP response, or a transport failure.  Connect-phase kinds surface from
`httpx` as `ConnectError` / `ConnectTimeout` (first `except` clause);
every other kind surfaces as `ReadTimeout`, `WriteTimeout`, `PoolTimeout`
or a generic `RequestError` (second `except` clause). -/
inductive AsyncNetOutcome where
  | response (status : Nat)
  | transportFailure (k : FailureKind)
deriving Repr, DecidableEq

/-- Result of one `_request` call, with exceptions as constructors:
`ok` (2xx body returned), `KRAConnectivityTimeoutError`,
`TIaaSAmbiguousStateError`, `TIaaSUnavailableError`, the `HTTPError`
re-raised after `raise_for_status`, any other re-raised
`RequestException`, a `KRAeTIMSAuthError` from `_authenticate`, and the
raw transport exception escaping the synchronous `_authenticate`. -/
inductive DispatchResult where
  | ok (status : Nat)
  | connectivityCeiling
  | ambiguousState
  | unavailable
  | httpStatusError (status : Nat)
  | uncaughtRequestExn (respStatus : Option Nat)
  | authFailed (msg : String)
  | authTransport (msg : String)
deriving Repr, DecidableEq

/-- Outcome classification of the synchronous `_request` body (client.py
lines 84-106): a 503 response raises `KRAConnectivityTimeoutError` before
`raise_for_status`; any other status of 400 and above raises `HTTPError`,
which falls into the `except RequestException` clause (whose own 503
re-check cannot fire there) and is re-raised; a `ConnectionError` or
`Timeout` yields `TIaaSAmbiguousStateError` on a mutating verb and
`TIaaSUnavailableError` otherwise; any other `RequestException` carrying
a 503 response yields `KRAConnectivityTimeoutError`, else it is
re-raised. -/
def syncClassify (method : String) (o : SyncNetOutcome) : DispatchResult :=
  match o with
  | .response status =>
    if status == 503 then .connectivityCeiling
    else if 400 ≤ status then
      if status == 503 then .connectivityCeiling else .httpStatusError status
    else .ok status
  | .transportFailure _ =>
    if isMutatingMethod method then .ambiguousState else .unavailable
  | .otherRequestExn respStatus =>
    if respStatus == some 503 then .connectivityCeiling
    else .uncaughtRequestExn respStatus

/-- Outcome classification of the asynchronous `_request` body
(async_client.py lines 85-105): a 503 response raises
`KRAConnectivityTimeoutError` before `raise_for_status`; any other status
of 400 and above raises `HTTPStatusError`, re-raised by the last `except`
clause (whose own 503 re-check cannot fire there); a `ConnectError` or
`ConnectTimeout` yields `TIaaSUnavailableError` regardless of method; a
`ReadTimeout`, `WriteTimeout`, `PoolTimeout` or other `RequestError`
yields `TIaaSAmbiguousStateError` on a mutating verb and
`TIaaSUnavailableError` otherwise. -/
def asyncClassify (method : String) (o : AsyncNetOutcome) : DispatchResult :=
  match o with
  | .response status =>
    if status == 503 then .connectivityCeiling
    else if 400 ≤ status then
      if status == 503 then .connectivityCeiling else .httpStatusError status
    else .ok status
  | .transportFailure k =>
    if k.isConnectPhase then .unavailable
    else if isMutatingMethod method then .ambiguousState
    else .unavailable

/-- Python f-string rendering of the bearer token: a missing token prints
as the string `None`. -/
def bearerValue : Option String → String
  | none => "None"
  | some s => s

/-- The idempotency header value attached by `_request`: present exactly
when the supplied key is truthy (`if idempotency_key:`). -/
def idemHeaderOf (idem : Option String) : Option String :=
  if isTruthy idem then idem else none

/-- URL assembly of `_request`:
`url = f"{self.base_url.rstrip('/')}/{path.lstrip('/')}"`. -/
def buildUrl (baseUrl path : String) : String :=
  stripTrailingSlashes baseUrl ++ "/" ++ stripLeadingSlashes path

/-- One outgoing dispatcher HTTP call: method, final URL, the
`Authorization` header, the `X-API-Key` header, the
`X-TIaaS-Idempotency-Key` header, and the timeout attached to the call.
A header field is `none` when the corresponding key is absent from the
headers dict. -/
structure OutgoingRequest where
  method : String
  url : String
  authorization : Option String
  xApiKey : Option String
  idemKey : Option String
  timeoutSeconds : Option Nat
deriving Repr, DecidableEq

/-- Trace of one `_request` invocation: the token-endpoint calls made by
the `_authenticate` step, the dispatched HTTP call if one was issued, and
the overall result. -/
structure DispatchTrace where
  authCalls : List AuthCall
  sent : Option OutgoingRequest
  result : DispatchResult
deriving Repr, DecidableEq

/-- Synchronous `KRAeTIMSClient._request` (client.py lines 71-106).  The
`sanitize_kra_url` decorator transforms the positional string arguments
`method` and `path`; then `_authenticate` runs; on its normal return the
request is issued with `Authorization: Bearer <token>` (never an
`X-API-Key` header — the class has no API-key mode), the idempotency
header when the key is truthy, and `timeout=30`. -/
def syncRequest (baseUrl : String) (st : TokenState) (now : Int)
    (method path : String) (idem : Option String)
    (authNet : AuthNetOutcome) (net : SyncNetOutcome) : DispatchTrace :=
  let m := sanitize_kra_url_str method
  let p := sanitize_kra_url_str path
  let auth := syncAuthenticate baseUrl st now authNet
  match auth.outcome with
  | .rawTransport msg => { authCalls := auth.calls, sent := none, result := .authTransport msg }
  | .authError msg => { authCalls := auth.calls, sent := none, result := .authFailed msg }
  | .ok st' =>
    let req : OutgoingRequest :=
      { method := m
        url := buildUrl baseUrl p
        authorization := some ("Bearer " ++ bearerValue st'.accessToken)
        xApiKey := none
        idemKey := idemHeaderOf (idem.map sanitize_kra_url_str)
        timeoutSeconds := some 30 }
    { authCalls := auth.calls, sent := some req, result := syncClassify m net }

/-- Asynchronous `AsyncKRAeTIMSClient._request` (async_client.py lines
75-105).  Identical structure; the call inherits the client-wide
`timeout=30.0` set in the constructor. -/
def asyncRequest (baseUrl : String) (st : TokenState) (now : Int)
    (method path : String) (idem : Option String)
    (authNet : AuthNetOutcome) (net : AsyncNetOutcome) : DispatchTrace :=
  let m := sanitize_kra_url_str method
  let p := sanitize_kra_url_str path
  let auth := asyncAuthenticate baseUrl st now authNet
  match auth.outcome with
  | .rawTransport msg => { authCalls := auth.calls, sent := none, result := .authTransport msg }
  | .authError msg => { authCalls := auth.calls, sent := none, result := .authFailed msg }
  | .ok st' =>
    let req : OutgoingRequest :=
      { method := m
        url := buildUrl baseUrl p
        authorization := some ("Bearer " ++ bearerValue st'.accessToken)
        xApiKey := none
        idemKey := idemHeaderOf (idem.map sanitize_kra_url_str)
        timeoutSeconds := some 30 }
    { authCalls := auth.calls, sent := some req, result := asyncClassify m net }

/-- Path built by `check_compliance(pin)`: the decorator sanitizes the
`pin` argument, then `f"/v2/etims/compliance/{pin}"` is formed. -/
def compliancePath (pin : String) : String :=
  "/v2/etims/compliance/" ++ sanitize_kra_url_str pin

/-- Does the string contain any whitespace character? -/
def hasWhitespace (s : String) : Bool := s.data.any Char.isWhitespace

/-- Sales invoice, reduced to the one field the flush queue reads. -/
structure SaleInvoice where
  invcNo : String
deriving Repr, DecidableEq

/-- Arguments with which `submit_sale` hands a sale off to `_request`:
the invoice and the idempotency key it passes along. -/
structure SaleSubmission where
  invcNo : String
  idemKey : Option String
deriving Repr, DecidableEq

/-- The call `submit_sale(invoice, idempotency_key)` forwards the key to
`_request` unchanged except for the decorator's per-string transform on
the keyword argument. -/
def submit_sale (inv : SaleInvoice) (idem : Option String) : SaleSubmission :=
  { invcNo := inv.invcNo, idemKey := idem.map sanitize_kra_url_str }

/-- One entry of the list returned by `flush_offline_queue`. -/
structure FlushRecord where
  invoiceNo : String
  status : String
  message : Option String
deriving Repr, DecidableEq

/-- Both `flush_offline_queue` implementations (client.py lines 138-150,
async_client.py lines 130-142): for each invoice in order, call
`self.submit_sale(invoice)` — with no idempotency-key argument, so the
default `None` is used — record a success or error entry, and continue
past failures.  `submitOutcome` is the oracle for what each submission
does; the second component of the result is the trace of submissions
issued. -/
def flush_offline_queue (submitOutcome : SaleSubmission → Except String Unit) :
    List SaleInvoice → List FlushRecord × List SaleSubmission
  | [] => ([], [])
  | inv :: rest =>
    let sub := submit_sale inv none
    let record : FlushRecord :=
      match submitOutcome sub with
      | .ok _ => { invoiceNo := inv.invcNo, status := "success", message := none }
      | .error m => { invoiceNo := inv.invcNo, status := "error", message := some m }
    let restR := flush_offline_queue submitOutcome rest
    (record :: restR.1, sub :: restR.2)

/-- One entry of the list returned by `batch_update_stock`:
`{"chunk": i//500, "status": "success", "count": len(chunk)}` or
`{"chunk": i//500, "status": "error", "message": str(e)}`. -/
inductive BatchOutcome where
  | success (chunk : Nat) (count : Nat)
  | error (chunk : Nat) (message : String)
deriving Repr, DecidableEq

/-- The try/except body of one loop iteration of `batch_update_stock`:
dispatch the chunk and record success with the chunk's length, or record
the captured error message. -/
def batchChunkOutcome (disp : Nat → List α → Except String Unit) (k : Nat)
    (chunk : List α) : BatchOutcome :=
  match disp k chunk with
  | .ok _ => .success k chunk.length
  | .error m => .error k m

/-- The loop `for i in range(0, len(items), 500)` of `batch_update_stock`
(identical in client.py lines 152-167 and async_client.py lines 144-158),
written as recursion on the unprocessed suffix: `k` is the chunk index
`i // 500`, the chunk is `items[i:i+500]`, and a chunk's failure does not
stop the iteration.  `disp` is the oracle for what each chunk's
`_request("POST", "/v2/etims/stock/batch", ...)` does. -/
def batchGo (disp : Nat → List α → Except String Unit) (k : Nat) :
    List α → List BatchOutcome
  | [] => []
  | x :: xs =>
    batchChunkOutcome disp k ((x :: xs).take 500) ::
      batchGo disp (k + 1) ((x :: xs).drop 500)
termination_by l => l.length
decreasing_by
  simp only [List.length_drop, List.length_cons]
  omega

/-- Entry point of both `batch_update_stock` implementations: run the
chunk loop from index 0. -/
def batch_update_stock (disp : Nat → List α → Except String Unit)
    (items : List α) : List BatchOutcome :=
  batchGo disp 0 items

/-- Modelled from the spec (for comparison against the source loop):
chunk `k` of the input is `items[500*k : 500*k + 500]`. -/
def specChunk (items : List α) (k : Nat) : List α :=
  (items.drop (500 * k)).take 500

/-- Modelled from the spec (for comparison against the source loop): the
batch result is one outcome record per chunk index `k < ceil(N/500)`, in
chunk order, each produced from chunk `k`. -/
def specBatchOutcomes (disp : Nat → List α → Except String Unit)
    (items : List α) : List BatchOutcome :=
  (List.range ((items.length + 499) / 500)).map fun k =>
    batchChunkOutcome disp k (specChunk items k)

/-- Result of running several callers through the `_authenticate`
critical section: the final credential state, all token-endpoint calls
made, and — for each caller, in order — the token it observes when its
critical section ends. -/
structure AuthRound where
  final : TokenState
  calls : List AuthCall
  observed : List (Option String)
deriving Repr, DecidableEq

/-- Concurrency model for N callers racing `_authenticate` on one client
instance.  Both sources evaluate the refresh decision and the refresh
action inside a single mutual-exclusion region (`with self._lock:` /
`async with self._lock:`), so any concurrent schedule of N callers is
equivalent to some sequential order of N critical-section executions;
since all callers execute the same section, iterating it N times models
every schedule.  `auth` is the critical section (`syncAuthenticate` or
`asyncAuthenticate`); a caller whose section raises leaves the state
unchanged, and each caller observes the token as its section ends. -/
def authRoundStep (auth : String → TokenState → Int → AuthNetOutcome → AuthResult)
    (baseUrl : String) (now : Int) (net : AuthNetOutcome) :
    Nat → TokenState → AuthRound
  | 0, st => { final := st, calls := [], observed := [] }
  | n + 1, st =>
    let r := auth baseUrl st now net
    let st' := match r.outcome with
      | .ok s => s
      | _ => st
    let rest := authRoundStep auth baseUrl now net n st'
    { final := rest.final
      calls := r.calls ++ rest.calls
      observed := st'.accessToken :: rest.observed }

theorem syncAuthenticate_fresh (b : String) (st : TokenState) (now : Int)
    (net : AuthNetOutcome) (h : needsRefresh st now = false) :
    syncAuthenticate b st now net = { outcome := .ok st, calls := [] } := by
  simp [syncAuthenticate, h]

theorem asyncAuthenticate_fresh (b : String) (st : TokenState) (now : Int)
    (net : AuthNetOutcome) (h : needsRefresh st now = false) :
    asyncAuthenticate b st now net = { outcome := .ok st, calls := [] } := by
  simp [asyncAuthenticate, h]

theorem syncRequest_result_of_authOk (b method path : String) (idem : Option String)
    (st : TokenState) (now : Int) (authNet : AuthNetOutcome) (net : SyncNetOutcome)
    (h : (syncAuthenticate b st now authNet).outcome.isOk = true) :
    (syncRequest b st now method path idem authNet net).result
      = syncClassify (sanitize_kra_url_str method) net := by
  rcases hO : syncAuthenticate b st now authNet with ⟨o, cs⟩
  rw [hO] at h
  cases o with
  | ok st' => simp [syncRequest, hO]
  | authError m => simp [AuthOutcome.isOk] at h
  | rawTransport m => simp [AuthOutcome.isOk] at h

theorem asyncRequest_result_of_authOk (b method path : String) (idem : Option String)
    (st : TokenState) (now : Int) (authNet : AuthNetOutcome) (net : AsyncNetOutcome)
    (h : (asyncAuthenticate b st now authNet).outcome.isOk = true) :
    (asyncRequest b st now method path idem authNet net).result
      = asyncClassify (sanitize_kra_url_str method) net := by
  rcases hO : asyncAuthenticate b st now authNet with ⟨o, cs⟩
  rw [hO] at h
  cases o with
  | ok st' => simp [asyncRequest, hO]
  | authError m => simp [AuthOutcome.isOk] at h
  | rawTransport m => simp [AuthOutcome.isOk] at h

theorem syncRequest_url_of_authOk (b method path : String) (idem : Option String)
    (st : TokenState) (now : Int) (authNet : AuthNetOutcome) (net : SyncNetOutcome)
    (h : (syncAuthenticate b st now authNet).outcome.isOk = true) :
    ((syncRequest b st now method path idem authNet net).sent.map OutgoingRequest.url)
      = some (buildUrl b (sanitize_kra_url_str path)) := by
  rcases hO : syncAuthenticate b st now authNet with ⟨o, cs⟩
  rw [hO] at h
  cases o with
  | ok st' => simp [syncRequest, hO]
  | authError m => simp [AuthOutcome.isOk] at h
  | rawTransport m => simp [AuthOutcome.isOk] at h

/-- C1: for every request issued through the dispatcher with a valid
credential, a timeout or transport error after the request may have been
transmitted (read/write/pool timeout or mid-flight transport error) makes
the call fail with `TIaaSAmbiguousStateError` when the method is POST,
PUT, PATCH or DELETE, and with `TIaaSUnavailableError` for a non-mutating
verb such as GET — in both the synchronous and the asynchronous client. -/
theorem midflight_failure_classification
    (b path method : String) (idem : Option String) (st : TokenState) (now : Int)
    (authNet : AuthNetOutcome) (k : FailureKind)
    (hm : sanitize_kra_url_str method = method)
    (hk : k.isMidflight = true)
    (hS : (syncAuthenticate b st now authNet).outcome.isOk = true)
    (hA : (asyncAuthenticate b st now authNet).outcome.isOk = true) :
    (syncRequest b st now method path idem authNet (.transportFailure k)).result
      = (if isMutatingMethod method then .ambiguousState else .unavailable)
    ∧ (asyncRequest b st now method path idem authNet (.transportFailure k)).result
      = (if isMutatingMethod method then .ambiguousState else .unavailable) := by
  have hc : k.isConnectPhase = false := by
    simpa [FailureKind.isMidflight] using hk
  constructor
  · rw [syncRequest_result_of_authOk _ _ _ _ _ _ _ _ hS, hm]
    simp [syncClassify]
  · rw [asyncRequest_result_of_authOk _ _ _ _ _ _ _ _ hA, hm]
    simp [asyncClassify, hc]

/-- Witness for C1: a read timeout on a POST with a valid token yields
the ambiguous-state error in both clients. -/
theorem midflight_failure_classification_witness :
    (syncRequest "https://api.test" ⟨some "T", 10000⟩ 0 "POST" "/v2/etims/sale" none
        (.transportError "unused") (.transportFailure .readTimeout)).result
      = (if isMutatingMethod "POST" then .ambiguousState else .unavailable)
    ∧ (asyncRequest "https://api.test" ⟨some "T", 10000⟩ 0 "POST" "/v2/etims/sale" none
        (.transportError "unused") (.transportFailure .readTimeout)).result
      = (if isMutatingMethod "POST" then .ambiguousState else .unavailable) :=
  midflight_failure_classification "https://api.test" "/v2/etims/sale" "POST" none
    ⟨some "T", 10000⟩ 0 (.transportError "unused") .readTimeout
    (by decide) (by decide) (by decide) (by decide)

/-- C2 counterexample: in the synchronous client a connection-refused
failure on a POST yields `TIaaSAmbiguousStateError`, not
`TIaaSUnavailableError` — the claim fails as stated.  The `requests`
library surfaces connection-refused as `ConnectionError`, which
`_request` catches together with `Timeout` and classifies by method. -/
theorem connect_refused_mutating_counterexample :
    (syncRequest "https://api.test" ⟨some "T", 10000⟩ 0 "POST" "/v2/etims/sale" none
        (.transportError "unused") (.transportFailure .connectRefused)).result
      = .ambiguousState := by
  decide

/-- C2 amended: a connect-phase failure (refused, DNS failure, connect
timeout) yields `TIaaSUnavailableError` regardless of method in the
asynchronous client; in the synchronous client it does so only for
non-mutating verbs, while on POST/PUT/PATCH/DELETE it yields
`TIaaSAmbiguousStateError`. -/
theorem connect_phase_classification_amended
    (b path method : String) (idem : Option String) (st : TokenState) (now : Int)
    (authNet : AuthNetOutcome) (k : FailureKind)
    (hm : sanitize_kra_url_str method = method)
    (hc : k.isConnectPhase = true)
    (hS : (syncAuthenticate b st now authNet).outcome.isOk = true)
    (hA : (asyncAuthenticate b st now authNet).outcome.isOk = true) :
    (asyncRequest b st now method path idem authNet (.transportFailure k)).result = .unavailable
    ∧ (syncRequest b st now method path idem authNet (.transportFailure k)).result
      = (if isMutatingMethod method then .ambiguousState else .unavailable) := by
  constructor
  · rw [asyncRequest_result_of_authOk _ _ _ _ _ _ _ _ hA]
    simp [asyncClassify, hc]
  · rw [syncRequest_result_of_authOk _ _ _ _ _ _ _ _ hS, hm]
    simp [syncClassify]

/-- Witness for the amended C2: connection refused on a POST with a valid
token — unavailable in the async client, ambiguous in the sync client. -/
theorem connect_phase_classification_amended_witness :
    (asyncRequest "https://api.test" ⟨some "T", 10000⟩ 0 "POST" "/v2/etims/sale" none
        (.transportError "unused") (.transportFailure .connectRefused)).result = .unavailable
    ∧ (syncRequest "https://api.test" ⟨some "T", 10000⟩ 0 "POST" "/v2/etims/sale" none
        (.transportError "unused") (.transportFailure .connectRefused)).result
      = (if isMutatingMethod "POST" then .ambiguousState else .unavailable) :=
  connect_phase_classification_amended "https://api.test" "/v2/etims/sale" "POST" none
    ⟨some "T", 10000⟩ 0 (.transportError "unused") .connectRefused
    (by decide) (by decide) (by decide) (by decide)

/-- C3: with a valid credential, a 503 response to any verb fails with
`KRAConnectivityTimeoutError` in both clients, never with the generic
HTTP status error — and a `RequestException` carrying a 503 response is
mapped the same way, so the 503 rule takes priority over the generic
non-2xx rule. -/
theorem status503_maps_to_connectivity_ceiling
    (b path method : String) (idem : Option String) (st : TokenState) (now : Int)
    (authNet : AuthNetOutcome)
    (hS : (syncAuthenticate b st now authNet).outcome.isOk = true)
    (hA : (asyncAuthenticate b st now authNet).outcome.isOk = true) :
    (syncRequest b st now method path idem authNet (.response 503)).result = .connectivityCeiling
    ∧ (asyncRequest b st now method path idem authNet (.response 503)).result
      = .connectivityCeiling
    ∧ (syncRequest b st now method path idem authNet (.otherRequestExn (some 503))).result
      = .connectivityCeiling := by
  refine ⟨?_, ?_, ?_⟩
  · rw [syncRequest_result_of_authOk _ _ _ _ _ _ _ _ hS]
    simp [syncClassify]
  · rw [asyncRequest_result_of_authOk _ _ _ _ _ _ _ _ hA]
    simp [asyncClassify]
  · rw [syncRequest_result_of_authOk _ _ _ _ _ _ _ _ hS]
    simp [syncClassify]

/-- Witness for C3: a 503 on a GET compliance check with a valid token. -/
theorem status503_maps_to_connectivity_ceiling_witness :
    (syncRequest "https://api.test" ⟨some "T", 10000⟩ 0 "GET" "/v2/etims/compliance/P1" none
        (.transportError "unused") (.response 503)).result = .connectivityCeiling
    ∧ (asyncRequest "https://api.test" ⟨some "T", 10000⟩ 0 "GET" "/v2/etims/compliance/P1" none
        (.transportError "unused") (.response 503)).result = .connectivityCeiling
    ∧ (syncRequest "https://api.test" ⟨some "T", 10000⟩ 0 "GET" "/v2/etims/compliance/P1" none
        (.transportError "unused") (.otherRequestExn (some 503))).result
      = .connectivityCeiling :=
  status503_maps_to_connectivity_ceiling "https://api.test" "/v2/etims/compliance/P1" "GET"
    none ⟨some "T", 10000⟩ 0 (.transportError "unused") (by decide) (by decide)

/-- C5 counterexample: in the synchronous client a transport failure
while reaching the token endpoint escapes `_authenticate` as the raw
transport exception — there is no try/except around `session.post` — so
the authenticator does not fail with `KRAeTIMSAuthError` as claimed. -/
theorem sync_auth_transport_counterexample :
    (syncAuthenticate "https://api.test" ⟨none, 0⟩ 0
        (.transportError "connection refused")).outcome
      = .rawTransport "connection refused" := rfl

/-- C5 amended: a transport failure while reaching the token endpoint
makes the asynchronous authenticator fail with `KRAeTIMSAuthError`
wrapping the cause, while the synchronous authenticator lets the
underlying transport exception propagate unwrapped. -/
theorem auth_transport_failure_amended (b : String) (st : TokenState) (now : Int) (m : String)
    (h : needsRefresh st now = true) :
    (asyncAuthenticate b st now (.transportError m)).outcome
      = .authError ("TIaaS Authentication unreachable: " ++ m)
    ∧ (syncAuthenticate b st now (.transportError m)).outcome = .rawTransport m := by
  constructor <;> simp [syncAuthenticate, asyncAuthenticate, h]

/-- Witness for the amended C5: a stale credential and a refused
connection to the token endpoint. -/
theorem auth_transport_failure_amended_witness :
    (asyncAuthenticate "https://api.test" ⟨none, 0⟩ 0 (.transportError "refused")).outcome
      = .authError ("TIaaS Authentication unreachable: " ++ "refused")
    ∧ (syncAuthenticate "https://api.test" ⟨none, 0⟩ 0 (.transportError "refused")).outcome
      = .rawTransport "refused" :=
  auth_transport_failure_amended "https://api.test" ⟨none, 0⟩ 0 "refused" (by decide)

theorem authRoundStep_fresh (auth : String → TokenState → Int → AuthNetOutcome → AuthResult)
    (b : String) (now : Int) (net : AuthNetOutcome) (st : TokenState)
    (hauth : auth b st now net = { outcome := .ok st, calls := [] }) :
    ∀ n, authRoundStep auth b now net n st
      = { final := st, calls := [], observed := List.replicate n st.accessToken } := by
  intro n
  induction n with
  | zero => rfl
  | succ n ih =>
    simp only [authRoundStep, hauth, ih]
    simp [List.replicate_succ]

/-- C4: with the refresh decision and refresh action serialized by the
per-instance lock (`with self._lock:` / `async with self._lock:`), N ≥ 1
callers that all start from an invalid or expired credential produce
exactly one network call to the token endpoint, and every caller
afterward observes the refreshed token — in both the thread-based and the
cooperative-task-based client. -/
theorem single_flight_refresh
    (b : String) (st : TokenState) (now : Int) (tok : String) (e : Int) (txt : String)
    (net : AuthNetOutcome) (n : Nat)
    (hnet : net = .response 200 (some tok) (some e) txt)
    (hstale : needsRefresh st now = true)
    (htok : tok ≠ "") (he : 60 ≤ e) (hn : 1 ≤ n) :
    ((authRoundStep syncAuthenticate b now net n st).calls.length = 1
      ∧ (authRoundStep syncAuthenticate b now net n st).observed
          = List.replicate n (some tok))
    ∧ ((authRoundStep asyncAuthenticate b now net n st).calls.length = 1
      ∧ (authRoundStep asyncAuthenticate b now net n st).observed
          = List.replicate n (some tok)) := by
  subst hnet
  obtain ⟨m, rfl⟩ : ∃ m, n = m + 1 := ⟨n - 1, by omega⟩
  have hfresh : needsRefresh (refreshedState now (some tok) (some e)) now = false := by
    simp only [needsRefresh, refreshedState, tokenFalsy, Option.getD_some,
      Bool.or_eq_false_iff, beq_eq_false_iff_ne, ne_eq, decide_eq_false_iff_not, not_lt]
    exact ⟨htok, by omega⟩
  constructor
  · have hstep : syncAuthenticate b st now (.response 200 (some tok) (some e) txt)
        = { outcome := .ok (refreshedState now (some tok) (some e)),
            calls := [{ url := b ++ "/oauth/token", timeoutSeconds := none }] } := by
      simp [syncAuthenticate, hstale]
    simp only [authRoundStep, hstep,
      authRoundStep_fresh syncAuthenticate b now _ _ (syncAuthenticate_fresh _ _ _ _ hfresh)]
    simp [refreshedState, List.replicate_succ]
  · have hstep : asyncAuthenticate b st now (.response 200 (some tok) (some e) txt)
        = { outcome := .ok (refreshedState now (some tok) (some e)),
            calls := [{ url := b ++ "/oauth/token", timeoutSeconds := some 30 }] } := by
      simp [asyncAuthenticate, hstale]
    simp only [authRoundStep, hstep,
      authRoundStep_fresh asyncAuthenticate b now _ _ (asyncAuthenticate_fresh _ _ _ _ hfresh)]
    simp [refreshedState, List.replicate_succ]

/-- Witness for C4: three callers, an empty credential, and a token
endpoint answering 200 with token `T` and lifetime 3600. -/
theorem single_flight_refresh_witness :
    ((authRoundStep syncAuthenticate "https://b" 0
        (.response 200 (some "T") (some 3600) "") 3 ⟨none, 0⟩).calls.length = 1
      ∧ (authRoundStep syncAuthenticate "https://b" 0
          (.response 200 (some "T") (some 3600) "") 3 ⟨none, 0⟩).observed
          = List.replicate 3 (some "T"))
    ∧ ((authRoundStep asyncAuthenticate "https://b" 0
        (.response 200 (some "T") (some 3600) "") 3 ⟨none, 0⟩).calls.length = 1
      ∧ (authRoundStep asyncAuthenticate "https://b" 0
          (.response 200 (some "T") (some 3600) "") 3 ⟨none, 0⟩).observed
          = List.replicate 3 (some "T")) :=
  single_flight_refresh "https://b" ⟨none, 0⟩ 0 "T" 3600 ""
    (.response 200 (some "T") (some 3600) "") 3 rfl (by decide) (by decide)
    (by decide) (by decide)

theorem syncAuthenticate_calls (b : String) (st : TokenState) (now : Int)
    (net : AuthNetOutcome) :
    (syncAuthenticate b st now net).calls
      = if needsRefresh st now then [{ url := b ++ "/oauth/token", timeoutSeconds := none }]
        else [] := by
  cases net with
  | transportError m =>
    by_cases h : needsRefresh st now <;> simp [syncAuthenticate, h]
  | response status tok exp text =>
    by_cases h : needsRefresh st now <;>
      simp [syncAuthenticate, h, apply_ite AuthResult.calls]

theorem asyncAuthenticate_calls (b : String) (st : TokenState) (now : Int)
    (net : AuthNetOutcome) :
    (asyncAuthenticate b st now net).calls
      = if needsRefresh st now then [{ url := b ++ "/oauth/token", timeoutSeconds := some 30 }]
        else [] := by
  cases net with
  | transportError m =>
    by_cases h : needsRefresh st now <;> simp [asyncAuthenticate, h]
  | response status tok exp text =>
    by_cases h : needsRefresh st now <;>
      simp [asyncAuthenticate, h, apply_ite AuthResult.calls]

/-- C6 (the code lacks the feature): the synchronous client has no
API-key mode — whenever the dispatcher forms an outgoing request, that
request carries an `Authorization` header and never an `X-API-Key`
header, and a stale credential always triggers a token-endpoint call,
for every method, path, key and network behaviour. -/
theorem no_api_key_mode
    (b method path : String) (idem : Option String) (st : TokenState) (now : Int)
    (authNet : AuthNetOutcome) (net : SyncNetOutcome) :
    (∀ r, (syncRequest b st now method path idem authNet net).sent = some r →
      r.xApiKey = none ∧ r.authorization.isSome = true)
    ∧ (needsRefresh st now = true →
        (syncRequest b st now method path idem authNet net).authCalls ≠ []) := by
  rcases hA : syncAuthenticate b st now authNet with ⟨o, cs⟩
  constructor
  · intro r hr
    cases o with
    | ok st' =>
      simp only [syncRequest, hA, Option.some.injEq] at hr
      rw [← hr]
      exact ⟨rfl, rfl⟩
    | authError m => simp [syncRequest, hA] at hr
    | rawTransport m => simp [syncRequest, hA] at hr
  · intro hstale
    have hcs : cs = [{ url := b ++ "/oauth/token", timeoutSeconds := none }] := by
      have h := syncAuthenticate_calls b st now authNet
      rw [hA, hstale] at h
      simpa using h
    cases o <;> simp [syncRequest, hA, hcs]

/-- Witness for C6: with a stale credential and a token endpoint
answering 200, the dispatched request carries no `X-API-Key`, carries an
`Authorization` header, and the token endpoint was contacted. -/
theorem no_api_key_mode_witness :
    (({ method := "POST"
        url := "https://b/p"
        authorization := some "Bearer T"
        xApiKey := none
        idemKey := none
        timeoutSeconds := some 30 } : OutgoingRequest).xApiKey
        = none
      ∧ ({ method := "POST"
           url := "https://b/p"
           authorization := some "Bearer T"
           xApiKey := none
           idemKey := none
           timeoutSeconds := some 30 } : OutgoingRequest).authorization.isSome = true)
    ∧ (syncRequest "https://b" ⟨none, 0⟩ 0 "POST" "/p" none
        (.response 200 (some "T") (some 3600) "") (.response 200)).authCalls ≠ [] :=
  ⟨(no_api_key_mode "https://b" "POST" "/p" none ⟨none, 0⟩ 0
      (.response 200 (some "T") (some 3600) "") (.response 200)).1 _ rfl,
    (no_api_key_mode "https://b" "POST" "/p" none ⟨none, 0⟩ 0
      (.response 200 (some "T") (some 3600) "") (.response 200)).2 rfl⟩

/-- C7 counterexample: a pin with leading/trailing (and inner) whitespace
is not stripped — `sanitize_kra_url` only strips strings that start with
`http://` or `https://` — so the final request URL of the compliance
check contains the whitespace verbatim. -/
theorem whitespace_pin_counterexample :
    ((syncRequest "https://api.test" ⟨some "T", 10000⟩ 0 "GET" (compliancePath " A01 ") none
        (.transportError "unused") (.response 200)).sent.map OutgoingRequest.url)
      = some "https://api.test/v2/etims/compliance/ A01 "
    ∧ hasWhitespace "https://api.test/v2/etims/compliance/ A01 " = true :=
  ⟨rfl, rfl⟩

/-- C7 amended: only string arguments beginning with `http://` or
`https://` (the base-URL shape) are stripped by the sanitizing
middleware; a path parameter such as the pin is passed through unchanged,
so the compliance-check URL embeds the pin verbatim. -/
theorem url_sanitization_amended
    (b pin : String) (st : TokenState) (now : Int)
    (authNet : AuthNetOutcome) (net : SyncNetOutcome)
    (hok : (syncAuthenticate b st now authNet).outcome.isOk = true)
    (hp : sanitize_kra_url_str pin = pin)
    (hq : sanitize_kra_url_str (compliancePath pin) = compliancePath pin) :
    ((syncRequest b st now "GET" (compliancePath pin) none authNet net).sent.map
        OutgoingRequest.url)
      = some (buildUrl b ("/v2/etims/compliance/" ++ pin))
    ∧ (∀ s, (pyStartsWith s "http://" || pyStartsWith s "https://") = false →
        sanitize_kra_url_str s = s) := by
  constructor
  · rw [syncRequest_url_of_authOk _ _ _ _ _ _ _ _ hok, hq]
    simp only [compliancePath, hp]
  · intro s hs
    simp [sanitize_kra_url_str, hs]

/-- Witness for the amended C7: a whitespace-padded pin reaches the URL
verbatim. -/
theorem url_sanitization_amended_witness :
    ((syncRequest "https://api.test" ⟨some "T", 10000⟩ 0 "GET" (compliancePath " A01 ") none
        (.transportError "unused") (.response 200)).sent.map OutgoingRequest.url)
      = some (buildUrl "https://api.test" ("/v2/etims/compliance/" ++ " A01 ")) :=
  (url_sanitization_amended "https://api.test" " A01 " ⟨some "T", 10000⟩ 0
    (.transportError "unused") (.response 200) (by decide) rfl rfl).1

/-- C9 counterexample: the synchronous client's token-endpoint call is
issued with no timeout at all — `session.post` is called without a
`timeout=` keyword — so not every HTTP call is bounded by 30 seconds. -/
theorem sync_auth_call_unbounded_counterexample :
    ((syncAuthenticate "https://b" ⟨none, 0⟩ 0
        (.response 200 (some "T") (some 3600) "")).calls.map AuthCall.timeoutSeconds)
      = [none]
    ∧ (none : Option Nat) ≠ some 30 :=
  ⟨rfl, by decide⟩

/-- C9 amended: every dispatcher HTTP call in both clients and the
asynchronous client's token-endpoint call carry a 30-second timeout; the
synchronous client's token-endpoint call alone is issued with no
timeout. -/
theorem http_call_timeouts_amended
    (b method path : String) (idem : Option String) (st : TokenState) (now : Int)
    (authNet : AuthNetOutcome) (netS : SyncNetOutcome) (netA : AsyncNetOutcome) :
    (∀ r, (syncRequest b st now method path idem authNet netS).sent = some r →
      r.timeoutSeconds = some 30)
    ∧ (∀ r, (asyncRequest b st now method path idem authNet netA).sent = some r →
      r.timeoutSeconds = some 30)
    ∧ (∀ c ∈ (asyncAuthenticate b st now authNet).calls, c.timeoutSeconds = some 30)
    ∧ (needsRefresh st now = true →
        (syncAuthenticate b st now authNet).calls.map AuthCall.timeoutSeconds = [none]) := by
  refine ⟨?_, ?_, ?_, ?_⟩
  · intro r hr
    rcases hA : syncAuthenticate b st now authNet with ⟨o, cs⟩
    cases o with
    | ok st' =>
      simp only [syncRequest, hA, Option.some.injEq] at hr
      rw [← hr]
    | authError m => simp [syncRequest, hA] at hr
    | rawTransport m => simp [syncRequest, hA] at hr
  · intro r hr
    rcases hA : asyncAuthenticate b st now authNet with ⟨o, cs⟩
    cases o with
    | ok st' =>
      simp only [asyncRequest, hA, Option.some.injEq] at hr
      rw [← hr]
    | authError m => simp [asyncRequest, hA] at hr
    | rawTransport m => simp [asyncRequest, hA] at hr
  · intro c hc
    rw [asyncAuthenticate_calls] at hc
    by_cases h : needsRefresh st now
    · rw [if_pos h] at hc
      simp only [List.mem_singleton] at hc
      rw [hc]
    · rw [if_neg h] at hc
      simp at hc
  · intro hstale
    rw [syncAuthenticate_calls, if_pos hstale]
    rfl

/-- Witness for the amended C9: a dispatched POST in each client carries
`timeout=30`, the async token call carries the client-wide 30-second
timeout, and the sync token call carries none. -/
theorem http_call_timeouts_amended_witness :
    (({ method := "POST"
        url := "https://b/p"
        authorization := some "Bearer T"
        xApiKey := none
        idemKey := none
        timeoutSeconds := some 30 } : OutgoingRequest).timeoutSeconds = some 30)
    ∧ (∀ c ∈ (asyncAuthenticate "https://b" (⟨none, 0⟩ : TokenState) 0
        (.response 200 (some "T") (some 3600) "")).calls, c.timeoutSeconds = some 30)
    ∧ ((syncAuthenticate "https://b" (⟨none, 0⟩ : TokenState) 0
        (.response 200 (some "T") (some 3600) "")).calls.map AuthCall.timeoutSeconds
      = [none]) :=
  ⟨(http_call_timeouts_amended "https://b" "POST" "/p" none ⟨none, 0⟩ 0
      (.response 200 (some "T") (some 3600) "") (.response 200) (.response 200)).1 _ rfl,
    (http_call_timeouts_amended "https://b" "POST" "/p" none ⟨none, 0⟩ 0
      (.response 200 (some "T") (some 3600) "") (.response 200) (.response 200)).2.2.1,
    (http_call_timeouts_amended "https://b" "POST" "/p" none ⟨none, 0⟩ 0
      (.response 200 (some "T") (some 3600) "") (.response 200) (.response 200)).2.2.2 rfl⟩

/-- C10: every submission issued by the offline flush queue calls
`submit_sale` with no idempotency key, so the dispatcher attaches no
`X-TIaaS-Idempotency-Key` header to any flush-issued request; one
submission is issued per invoice, and one outcome record is returned per
invoice. -/
theorem flush_submissions_carry_no_idempotency_key
    (submitOutcome : SaleSubmission → Except String Unit) (invoices : List SaleInvoice) :
    (flush_offline_queue submitOutcome invoices).2
      = invoices.map (fun inv => { invcNo := inv.invcNo, idemKey := none })
    ∧ ((flush_offline_queue submitOutcome invoices).2.all
        fun sub => idemHeaderOf sub.idemKey == none) = true
    ∧ (flush_offline_queue submitOutcome invoices).1.length = invoices.length := by
  induction invoices with
  | nil => exact ⟨rfl, rfl, rfl⟩
  | cons inv rest ih =>
    refine ⟨?_, ?_, ?_⟩
    · simp only [flush_offline_queue, submit_sale, Option.map_none, List.map_cons]
      exact congrArg _ ih.1
    · simp only [flush_offline_queue, List.all_cons, Bool.and_eq_true]
      exact ⟨rfl, ih.2.1⟩
    · simp only [flush_offline_queue, List.length_cons]
      exact congrArg Nat.succ ih.2.2

theorem batchGo_eq (disp : Nat → List α → Except String Unit) :
    ∀ (n : Nat) (l : List α) (k : Nat), l.length ≤ n →
      batchGo disp k l
        = (List.range ((l.length + 499) / 500)).map
            (fun j => batchChunkOutcome disp (k + j) ((l.drop (500 * j)).take 500)) := by
  intro n
  induction n with
  | zero =>
    intro l k h
    have hl : l = [] := List.eq_nil_of_length_eq_zero (Nat.le_zero.mp h)
    subst hl
    simp [batchGo]
  | succ n ih =>
    intro l k h
    match l with
    | [] => simp [batchGo]
    | x :: xs =>
      have hlen : ((x :: xs).drop 500).length = (x :: xs).length - 500 := by
        simp [List.length_drop]
      have h1 : ((x :: xs).length + 499) / 500
          = (((x :: xs).drop 500).length + 499) / 500 + 1 := by
        rw [hlen]
        have hpos : 0 < (x :: xs).length := by simp
        omega
      have h2 : ((x :: xs).drop 500).length ≤ n := by
        rw [hlen]
        simp only [List.length_cons] at h ⊢
        omega
      have htail : ((List.range ((((x :: xs).drop 500).length + 499) / 500)).map
            (fun j => batchChunkOutcome disp (k + 1 + j)
              ((((x :: xs).drop 500).drop (500 * j)).take 500)))
          = ((List.range ((((x :: xs).drop 500).length + 499) / 500)).map
            ((fun j => batchChunkOutcome disp (k + j) (((x :: xs).drop (500 * j)).take 500))
              ∘ Nat.succ)) := by
        refine congrArg
          (fun g => List.map g (List.range ((((x :: xs).drop 500).length + 499) / 500))) ?_
        funext j
        simp only [Function.comp_apply, List.drop_drop]
        have e1 : k + 1 + j = k + Nat.succ j := by omega
        have e2 : 500 + 500 * j = 500 * Nat.succ j := by omega
        rw [e1, e2]
      rw [batchGo, ih ((x :: xs).drop 500) (k + 1) h2, h1,
        List.range_succ_eq_map, List.map_cons, List.map_map, htail]
      simp

/-- C8: both `batch_update_stock` loops split the input into consecutive
chunks of at most 500 items, issue one dispatch per chunk — so exactly
`ceil(N/500)` dispatches for N items, 20 for 10,000 — and return one
outcome record per chunk in chunk order, where record `k` carries chunk
index `k` and, on success, the length of chunk `k`; a chunk whose
dispatch fails is recorded as an error outcome with the captured message
and the loop continues with the remaining chunks. -/
theorem batch_update_stock_chunking (disp : Nat → List α → Except String Unit)
    (items : List α) :
    batch_update_stock disp items = specBatchOutcomes disp items
    ∧ (batch_update_stock disp items).length = (items.length + 499) / 500 := by
  have hspec : batch_update_stock disp items = specBatchOutcomes disp items := by
    rw [batch_update_stock, batchGo_eq disp items.length items 0 (le_refl _),
      specBatchOutcomes]
    congr 1
    funext j
    simp [specChunk]
  refine ⟨hspec, ?_⟩
  rw [hspec, specBatchOutcomes]
  simp

end KraEtims
